import Mathlib

/-!
# Verification of the AfinaSql Oracle database driver (`src/index.js`)

Shallow embedding of the driver. The JavaScript code is asynchronous and
effectful; we model it by explicit state passing plus an *effect trace*:
every method returns its result together with the ordered list of external
actions (pool and connection calls) it performed. Outcomes of external
calls (statement execution, pool creation) are supplied by an environment
`Env`; the pool's lease/release/terminate semantics themselves are assumed
correct, as the specification scopes them out, so `Connection.close()` and
`Pool.terminate()` are modelled as always succeeding while statement
execution and pool creation may fail.

JavaScript `undefined`/missing configuration strings are modelled as the
empty string (both are falsy under the `!x` tests the code performs on
them).
-/

set_option maxHeartbeats 1000000
set_option maxRecDepth 100000

/-- A JavaScript value bound to a statement parameter in this code base:
the driver only ever binds strings and numbers. Neither is callable. -/
inductive JsValue where
  | str (s : String)
  | num (n : Int)
  deriving DecidableEq

/-- A JavaScript `TypeError`: attempting to call a value that is not a
function. -/
inductive TypeErr where
  | notAFunction
  deriving DecidableEq

/-- Bind direction constants (`oci.BIND_IN` / `BIND_OUT` / `BIND_INOUT`). -/
inductive BindDir where
  | bindIn
  | bindOut
  | bindInOut
  deriving DecidableEq

/-- Bind datatype constants (`oci.NUMBER` / `STRING` / `DATE` / `CLOB`). -/
inductive BindType where
  | number
  | string
  | date
  | clob
  deriving DecidableEq

/-- The `val` property slot of an `OraSqlParam` instance. In JavaScript the
prototype method `val` and the instance property `val` share one name:
before the first call, property lookup finds the prototype method
(`.method`); the call `this.val = value` then creates an instance property
shadowing the method (`.value v`). -/
inductive ValSlot where
  | method
  | value (v : JsValue)
  deriving DecidableEq

/-- Oracle bind parameter (`class OraSqlParam`). Fields `dir`, `type`,
`maxSize` are absent until the corresponding chainable setter runs; the one
`val` slot is described by `ValSlot`. -/
structure OraSqlParam where
  dir : Option BindDir := none
  type : Option BindType := none
  maxSize : Option Nat := none
  valSlot : ValSlot := .method
  deriving DecidableEq

/-- `new OraSqlParam()`. -/
def OraSqlParam.new : OraSqlParam := {}

/-- `dirIn()`: sets direction IN, returns `this`. -/
def OraSqlParam.dirIn (p : OraSqlParam) : OraSqlParam :=
  { p with dir := some .bindIn }

/-- `dirOut()`: sets direction OUT, returns `this`. -/
def OraSqlParam.dirOut (p : OraSqlParam) : OraSqlParam :=
  { p with dir := some .bindOut }

/-- `dirInOut()`: sets direction IN/OUT, returns `this`. -/
def OraSqlParam.dirInOut (p : OraSqlParam) : OraSqlParam :=
  { p with dir := some .bindInOut }

/-- `typeNumber()`. -/
def OraSqlParam.typeNumber (p : OraSqlParam) : OraSqlParam :=
  { p with type := some .number }

/-- `typeString(maxSize)`: `maxSize` is applied only when truthy, and a
numeric argument is falsy exactly when it is `0`. -/
def OraSqlParam.typeString (p : OraSqlParam) (maxSize : Option Nat := none) : OraSqlParam :=
  { p with type := some .string,
           maxSize := match maxSize with
                      | some n => if n = 0 then p.maxSize else some n
                      | none => p.maxSize }

/-- `typeDate()`. -/
def OraSqlParam.typeDate (p : OraSqlParam) : OraSqlParam :=
  { p with type := some .date }

/-- `typeClob()`. -/
def OraSqlParam.typeClob (p : OraSqlParam) : OraSqlParam :=
  { p with type := some .clob }

/-- `val(value) { this.val = value; return this }`. The call only succeeds
while the `val` slot still holds the prototype method; the assignment then
shadows the method with the stored value, so a later `p.val(w)` looks up
that stored value and fails with a `TypeError` because a string or number
is not callable. -/
def OraSqlParam.val (p : OraSqlParam) (value : JsValue) : Except TypeErr OraSqlParam :=
  match p.valSlot with
  | .method => .ok { p with valSlot := .value value }
  | .value _ => .error .notAFunction

/-- `class OraSqlParams`: a named collection of bind parameters, modelled
as an association list from parameter name to descriptor. -/
abbrev OraSqlParams := List (String × OraSqlParam)

/-- `_.set(this, name, param)` for the plain property names used here:
update the binding if the name exists, otherwise append it. -/
def OraSqlParams.set (ps : OraSqlParams) (name : String) (param : OraSqlParam) : OraSqlParams :=
  match ps with
  | [] => [(name, param)]
  | (n, q) :: rest =>
      if n = name then (name, param) :: rest
      else (n, q) :: OraSqlParams.set rest name param

/-- Look a parameter up by name. -/
def OraSqlParams.get (ps : OraSqlParams) (name : String) : Option OraSqlParam :=
  match ps with
  | [] => none
  | (n, q) :: rest => if n = name then some q else OraSqlParams.get rest name

/-- `add(name)`: creates a fresh descriptor, stores it under `name`, and
returns it (the collection and the returned descriptor alias the same
object in JavaScript). -/
def OraSqlParams.add (ps : OraSqlParams) (name : String) : OraSqlParams × OraSqlParam :=
  (ps.set name OraSqlParam.new, OraSqlParam.new)

/-- The idiom `ps.add(name).val(v)`: `add` inserts a fresh descriptor and
returns it; the chained `val` call mutates that same aliased descriptor, so
the collection sees the value. A fresh descriptor's `val` slot holds the
prototype method, so the call cannot fail; the `.error` branch is
unreachable (see `OraSqlParams.addVal_eq`). -/
def OraSqlParams.addVal (ps : OraSqlParams) (name : String) (v : JsValue) : OraSqlParams :=
  match OraSqlParam.new.val v with
  | .ok p => ps.set name p
  | .error _ => ps

/-- Bind arguments accepted by `Connection.execute`: either a plain
positional array of values or a named `OraSqlParams` collection. -/
inductive BindArgs where
  | positional (vs : List JsValue)
  | named (ps : OraSqlParams)
  deriving DecidableEq

/-- One result row, as an object: field name to value. -/
abbrev Row := List (String × JsValue)

/-- `_.set(row, key, v)`: update the field if present, else append it. -/
def Row.set (r : Row) (key : String) (v : JsValue) : Row :=
  match r with
  | [] => [(key, v)]
  | (k, w) :: rest => if k = key then (key, v) :: rest else (k, w) :: Row.set rest key v

/-- Read a field of a row. -/
def Row.get (r : Row) (key : String) : Option JsValue :=
  match r with
  | [] => none
  | (k, w) :: rest => if k = key then some w else Row.get rest key

/-- The driver-native statement result; only the `rows` component is ever
inspected by this code (`outBinds` etc. are carried opaquely inside it in
the real driver). -/
structure ExecResult where
  rows : List Row
  deriving DecidableEq

/-- Errors surfaced by the driver. `statement c sql binds` identifies the
database error thrown by the `Connection.execute` call with that
connection, text and binds, so propagating it "unchanged" is equality of
these values. `configUserMissing` / `configConnectMissing` model the two
strings thrown by `open()`; `poolCreate` a failed `createPool`;
`poolUndefined` the `TypeError` from `close()` when `this._pool` was never
assigned. -/
inductive Err where
  | configUserMissing
  | configConnectMissing
  | poolCreate
  | statement (connId : Nat) (sql : String) (binds : BindArgs)
  | poolUndefined
  deriving DecidableEq

/-- External actions performed by the driver, in order. -/
inductive DbAction where
  | randomBytes (n : Nat)
  | createPool
  | poolGetConnection (connId : Nat)
  | connExecute (connId : Nat) (sql : String) (binds : BindArgs)
  | connClose (connId : Nat)
  | poolTerminate
  deriving DecidableEq

/-- Is this action a `Connection.close()`? -/
def DbAction.isClose : DbAction → Bool
  | .connClose _ => true
  | _ => false

/-- Is this action a `Connection.close()` of connection `c`? -/
def DbAction.isCloseOf (c : Nat) : DbAction → Bool
  | .connClose c2 => c2 = c
  | _ => false

/-- Is this action a `createPool`? -/
def DbAction.isCreatePool : DbAction → Bool
  | .createPool => true
  | _ => false

/-- Is this action a `crypto.randomBytes` request? -/
def DbAction.isRandomBytes : DbAction → Bool
  | .randomBytes _ => true
  | _ => false

/-- Is this action a `Connection.execute`? -/
def DbAction.isExecute : DbAction → Bool
  | .connExecute _ _ _ => true
  | _ => false

/-- Environment: the outcome of every external call the driver makes
during one method invocation. `execOk` decides whether a given
`Connection.execute` call succeeds, and `rowsOf` supplies the rows it
returns on success; `createPoolOk` decides pool creation; `newConnId` is
the identity of the connection the pool leases; `randomBytes` is the
byte sequence `crypto.randomBytes(24)` produces. -/
structure Env where
  createPoolOk : Bool
  newConnId : Nat
  execOk : Nat → String → BindArgs → Bool
  rowsOf : Nat → String → BindArgs → List Row
  randomBytes : List Nat

/-- `Connection.execute(sql, binds, ...)` as one environment-determined
step: the result (success with rows, or the statement error) paired with
the trace action recording the call. -/
def Env.connExec (env : Env) (c : Nat) (sql : String) (binds : BindArgs) :
    Except Err ExecResult × List DbAction :=
  (if env.execOk c sql binds then .ok ⟨env.rowsOf c sql binds⟩
   else .error (.statement c sql binds),
   [DbAction.connExecute c sql binds])

/-- Database configuration handed to the constructor. -/
structure DbConfig where
  username : String
  password : String
  connectString : String
  schema : String
  deriving DecidableEq

/-- The driver's mutable instance state (`class AfinaSqlDbDriver`).
`pool` is `none` until `open()` assigns `this._pool`. -/
structure AfinaSqlDbDriver where
  dbUser : String
  dbPassword : String
  dbConnectionString : String
  dbSchema : String
  implementation : String
  browser : String
  isOpened : Bool
  pool : Option Unit
  deriving DecidableEq

/-- The constructor: copies the config and initializes
`_implementation = 'AdminOnline'`, `_browser = 'Afina Oracle Driver'`,
`_isOpened = false`; no pool exists yet. -/
def AfinaSqlDbDriver.build (config : DbConfig) : AfinaSqlDbDriver :=
  { dbUser := config.username
    dbPassword := config.password
    dbConnectionString := config.connectString
    dbSchema := config.schema
    implementation := "AdminOnline"
    browser := "Afina Oracle Driver"
    isOpened := false
    pool := none }

/-- `open()`: no-op when already open; otherwise validates that user name
and connect string are non-empty (JavaScript truthiness on strings),
creates the pool and sets `_isOpened = true`. Named `openPool` because
`open` is a Lean keyword. -/
def AfinaSqlDbDriver.openPool (env : Env) (d : AfinaSqlDbDriver) :
    AfinaSqlDbDriver × Except Err Unit × List DbAction :=
  if d.isOpened then (d, .ok (), [])
  else if d.dbUser = "" then (d, .error .configUserMissing, [])
  else if d.dbConnectionString = "" then (d, .error .configConnectMissing, [])
  else if env.createPoolOk then
    ({ d with isOpened := true, pool := some () }, .ok (), [.createPool])
  else (d, .error .poolCreate, [.createPool])

/-- `close()`: `await this._pool.terminate()` throws a `TypeError` when
`_pool` was never assigned; otherwise the pool is terminated and
`_isOpened` is set to false (the `_pool` field itself is not cleared). -/
def AfinaSqlDbDriver.close (d : AfinaSqlDbDriver) :
    AfinaSqlDbDriver × Except Err Unit × List DbAction :=
  match d.pool with
  | none => (d, .error .poolUndefined, [])
  | some _ => ({ d with isOpened := false }, .ok (), [.poolTerminate])

/-- The idiom `if (!this._isOpened) await this.open()` used by
`getConnection` and `logon`. -/
def AfinaSqlDbDriver.ensureOpen (env : Env) (d : AfinaSqlDbDriver) :
    AfinaSqlDbDriver × Except Err Unit × List DbAction :=
  if d.isOpened then (d, .ok (), []) else d.openPool env

/-- The schema-switch statement text
`` `alter session set CURRENT_SCHEMA = ${this._dbSchema}` ``. -/
def alterSchemaSql (schema : String) : String :=
  "alter session set CURRENT_SCHEMA = " ++ schema

/-- The session-validation statement text used by `getConnection`. -/
def validateSql : String :=
  "begin PKG_SESSION.VALIDATE_WEB(SCONNECT => :SCONNECT); end;"

/-- The logoff statement text used by `logoff`. -/
def logoffSql : String :=
  "begin PKG_SESSION.LOGOFF_WEB(SCONNECT => :SCONNECT); end;"

/-- `getConnection(aSessionId)`: lazily open, lease a connection, switch
its schema, validate the session on it, and return it. A failure of either
statement propagates and the connection is not returned (and, as in the
source, not closed here). -/
def AfinaSqlDbDriver.getConnection (env : Env) (d : AfinaSqlDbDriver) (aSessionId : String) :
    AfinaSqlDbDriver × Except Err Nat × List DbAction :=
  match d.ensureOpen env with
  | (d1, .error e, tr) => (d1, .error e, tr)
  | (d1, .ok _, tr) =>
      let lConnection := env.newConnId
      let tr := tr ++ [DbAction.poolGetConnection lConnection]
      match env.connExec lConnection (alterSchemaSql d1.dbSchema) (.positional []) with
      | (.error e, trA) => (d1, .error e, tr ++ trA)
      | (.ok _, trA) =>
          match env.connExec lConnection validateSql (.positional [.str aSessionId]) with
          | (.error e, trV) => (d1, .error e, tr ++ trA ++ trV)
          | (.ok _, trV) => (d1, .ok lConnection, tr ++ trA ++ trV)

/-- `execute(aSessionId, aSql, aBindParams, aExecuteOptions, aConnection)`.
With a caller-supplied connection the statement runs on it and the
connection is never closed; otherwise a connection is obtained via
`getConnection` and the `finally` block closes it after the statement,
on success and on statement error alike, before the error propagates.
(The opaque `aExecuteOptions` object never influences control flow and is
not modelled.) -/
def AfinaSqlDbDriver.execute (env : Env) (d : AfinaSqlDbDriver)
    (aSessionId aSql : String) (aBindParams : BindArgs := .positional [])
    (aConnection : Option Nat := none) :
    AfinaSqlDbDriver × Except Err ExecResult × List DbAction :=
  match aConnection with
  | some lConnection =>
      let (r, trE) := env.connExec lConnection aSql aBindParams
      (d, r, trE)
  | none =>
      match d.getConnection env aSessionId with
      | (d1, .error e, tr) => (d1, .error e, tr)
      | (d1, .ok lConnection, tr) =>
          let (r, trE) := env.connExec lConnection aSql aBindParams
          (d1, r, tr ++ trE ++ [DbAction.connClose lConnection])

/-- `logoff(aSessionId)`: runs the logoff statement through `execute`
(internally scoped) and converts any error whatsoever into the status
`-1`, success into `0`. -/
def AfinaSqlDbDriver.logoff (env : Env) (d : AfinaSqlDbDriver) (aSessionId : String) :
    Int × AfinaSqlDbDriver × List DbAction :=
  match d.execute env aSessionId logoffSql (.positional [.str aSessionId]) none with
  | (d1, .ok _, tr) => (0, d1, tr)
  | (d1, .error _, tr) => (-1, d1, tr)

/-- One lowercase hexadecimal digit character: `0`–`9` then `a`–`f`. -/
def hexDigit (n : Nat) : Char :=
  if n < 10 then Char.ofNat (48 + n) else Char.ofNat (87 + n)

/-- The two hex digits Node's `Buffer.toString('hex')` prints for one
byte. -/
def byteHexChars (b : Nat) : List Char :=
  [hexDigit (b / 16), hexDigit (b % 16)]

/-- `buffer.toString('hex')`: each byte as two lowercase hex digits. -/
def bytesToHex (bs : List Nat) : String :=
  ⟨bs.flatMap byteHexChars⟩

/-- The logon statement template: the `SBROWSER` line is interpolated only
when `aOldPackageSession` is false, exactly as in the source's template
literal. -/
def sqlLogon (aOldPackageSession : Bool) : String :=
  "begin\n" ++
  "               PKG_SESSION.LOGON_WEB(SCONNECT        => :SCONNECT,\n" ++
  "                                     SUTILIZER       => :SUTILIZER,\n" ++
  "                                     SPASSWORD       => :SPASSWORD,\n" ++
  "                                     SIMPLEMENTATION => :SIMPLEMENTATION,\n" ++
  "                                     SAPPLICATION    => :SAPPLICATION,\n" ++
  "                                     SCOMPANY        => :SCOMPANY,\n" ++
  "                                     " ++
  (if !aOldPackageSession then "SBROWSER        => :SBROWSER," else "") ++
  "\n" ++
  "                                     SLANGUAGE       => :SLANGUAGE);\n" ++
  "             end;"

/-- The informational query run after a successful logon. -/
def sqlInfo : String :=
  "select \n" ++
  "                PKG_SESSION.GET_COMPANY(0) as NCOMPANY, \n" ++
  "                PKG_SESSION.GET_UTILIZER_NAME() as SFULLUSERNAME, \n" ++
  "                PKG_SESSION.GET_APPLICATION_NAME(0) as SAPPNAME, \n" ++
  "                PKG_SESSION.GET_COMPANY_FULLNAME(0) as SCOMPANYFULLNAME \n" ++
  "            from dual"

/-- The `paramsLogin` collection built by `logon`: each line is one
`paramsLogin.add(name).val(...)`, and the `SBROWSER` entry is added only
when `aOldPackageSession` is false. -/
def logonParams (lSessionId aAfinaUser aAfinaWebPassword implementation aAfinaApplication
    aAfinaCompany aAfinaInterfaceLanguage browser : String)
    (aOldPackageSession : Bool) : OraSqlParams :=
  let ps : OraSqlParams := []
  let ps := ps.addVal "SCONNECT" (.str lSessionId)
  let ps := ps.addVal "SUTILIZER" (.str aAfinaUser)
  let ps := ps.addVal "SPASSWORD" (.str aAfinaWebPassword)
  let ps := ps.addVal "SIMPLEMENTATION" (.str implementation)
  let ps := ps.addVal "SAPPLICATION" (.str aAfinaApplication)
  let ps := ps.addVal "SCOMPANY" (.str aAfinaCompany)
  let ps := ps.addVal "SLANGUAGE" (.str aAfinaInterfaceLanguage)
  if !aOldPackageSession then ps.addVal "SBROWSER" (.str browser) else ps

/-- `logon(...)`: generate the session token from 24 random bytes, build
the logon statement and parameter collection, lazily open the pool, lease
a connection, switch its schema (outside the `try`/`finally`!), then under
`finally`-guaranteed close run the logon statement and the informational
query, attach `sessionID` to the first result row and return it. -/
def AfinaSqlDbDriver.logon (env : Env) (d : AfinaSqlDbDriver)
    (aAfinaUser aAfinaWebPassword aAfinaCompany aAfinaApplication
     aAfinaInterfaceLanguage : String) (aOldPackageSession : Bool := false) :
    AfinaSqlDbDriver × Except Err (Option Row) × List DbAction :=
  let lSessionId := bytesToHex env.randomBytes
  let paramsLogin := logonParams lSessionId aAfinaUser aAfinaWebPassword d.implementation
      aAfinaApplication aAfinaCompany aAfinaInterfaceLanguage d.browser aOldPackageSession
  let tr0 : List DbAction := [.randomBytes 24]
  match d.ensureOpen env with
  | (d1, .error e, trO) => (d1, .error e, tr0 ++ trO)
  | (d1, .ok _, trO) =>
      let lConnection := env.newConnId
      let trL := tr0 ++ trO ++ [DbAction.poolGetConnection lConnection]
      match env.connExec lConnection (alterSchemaSql d1.dbSchema) (.positional []) with
      | (.error e, trA) => (d1, .error e, trL ++ trA)
      | (.ok _, trA) =>
          match env.connExec lConnection (sqlLogon aOldPackageSession) (.named paramsLogin) with
          | (.error e, trB) =>
              (d1, .error e, trL ++ trA ++ trB ++ [DbAction.connClose lConnection])
          | (.ok _, trB) =>
              match env.connExec lConnection sqlInfo (.named []) with
              | (.error e, trC) =>
                  (d1, .error e, trL ++ trA ++ trB ++ trC ++ [DbAction.connClose lConnection])
              | (.ok res, trC) =>
                  let resultInfo :=
                    res.rows.head?.map (fun r => r.set "sessionID" (.str lSessionId))
                  (d1, .ok resultInfo,
                   trL ++ trA ++ trB ++ trC ++ [DbAction.connClose lConnection])

/-- Does `hay` start with `pat`? -/
def listBeginsWith : List Char → List Char → Bool
  | _, [] => true
  | [], _ :: _ => false
  | c :: hs, p :: ps => c = p && listBeginsWith hs ps

/-- Does `hay` contain `pat` as a contiguous substring? -/
def listContainsSub : List Char → List Char → Bool
  | [], pat => pat.isEmpty
  | c :: hs, pat => listBeginsWith (c :: hs) pat || listContainsSub hs pat

/-- Substring test on strings, via their character lists. -/
def strContains (s sub : String) : Bool :=
  listContainsSub s.data sub.data

/-- The lowercase hexadecimal alphabet. -/
def hexAlphabet : List Char :=
  "0123456789abcdef".data

/-- A sample configuration for concrete instantiations. -/
def cfg0 : DbConfig :=
  { username := "scott", password := "tiger", connectString := "db", schema := "S" }

/-- A driver whose pool is already open. -/
def d0 : AfinaSqlDbDriver :=
  { AfinaSqlDbDriver.build cfg0 with isOpened := true, pool := some () }

/-- A freshly constructed driver (pool never opened). -/
def dFresh : AfinaSqlDbDriver := AfinaSqlDbDriver.build cfg0

/-- 24 sample random bytes. -/
def bytes24 : List Nat :=
  [0, 1, 2, 3, 4, 5, 6, 7, 8, 9, 10, 11, 12, 13, 14, 15, 16, 17, 18, 19, 20, 21, 22, 23]

/-- Sample rows for the informational query. -/
def rowsInfo : List Row := [[("NCOMPANY", JsValue.num 1)]]

/-- Environment in which every external call succeeds. -/
def envAll : Env :=
  { createPoolOk := true, newConnId := 0, execOk := fun _ _ _ => true,
    rowsOf := fun _ _ _ => rowsInfo, randomBytes := bytes24 }

/-- Environment in which exactly the schema-switch statement fails. -/
def envAlterFails : Env :=
  { envAll with execOk := fun _ sql _ => sql != alterSchemaSql "S" }

/-- Environment in which exactly the session-validation statement fails. -/
def envValidateFails : Env :=
  { envAll with execOk := fun _ sql _ => sql != validateSql }

/-- Environment in which exactly the caller's statement fails. -/
def envStmtFails : Env :=
  { envAll with execOk := fun _ sql _ => sql != "select 1 from dual" }

/-! ## Helper lemmas -/

/-- `ensureOpen` touches no connection: its trace is empty or one
`createPool`. -/
theorem ensureOpen_trace (env : Env) (d : AfinaSqlDbDriver) :
    (d.ensureOpen env).2.2 = [] ∨ (d.ensureOpen env).2.2 = [DbAction.createPool] := by
  unfold AfinaSqlDbDriver.ensureOpen AfinaSqlDbDriver.openPool
  repeat' split
  all_goals simp

/-- `ensureOpen` never closes a connection. -/
theorem ensureOpen_close_count (env : Env) (d : AfinaSqlDbDriver) :
    ((d.ensureOpen env).2.2).countP DbAction.isClose = 0 := by
  rcases ensureOpen_trace env d with h | h <;> rw [h] <;> rfl

/-- `ensureOpen` requests no random bytes. -/
theorem ensureOpen_random_count (env : Env) (d : AfinaSqlDbDriver) :
    ((d.ensureOpen env).2.2).countP DbAction.isRandomBytes = 0 := by
  rcases ensureOpen_trace env d with h | h <;> rw [h] <;> rfl

/-- `getConnection` never closes a connection, on any of its paths. -/
theorem getConnection_close_free (env : Env) (d : AfinaSqlDbDriver) (s : String) :
    ((d.getConnection env s).2.2).countP DbAction.isClose = 0 := by
  unfold AfinaSqlDbDriver.getConnection
  rcases h : d.ensureOpen env with ⟨d1, r, trO⟩
  have htr : trO.countP DbAction.isClose = 0 := by
    have h0 := ensureOpen_close_count env d
    rw [h] at h0
    exact h0
  cases r with
  | error e => simpa using htr
  | ok u =>
      simp only [Env.connExec]
      by_cases e1 : env.execOk env.newConnId (alterSchemaSql d1.dbSchema) (.positional [])
      · by_cases e2 : env.execOk env.newConnId validateSql (.positional [.str s])
        · simp [e1, e2, List.countP_append, List.countP_cons, htr, DbAction.isClose]
        · simp [e1, e2, List.countP_append, List.countP_cons, htr, DbAction.isClose]
      · simp [e1, List.countP_append, List.countP_cons, htr, DbAction.isClose]

/-- Setting a row field makes it readable under that key. -/
theorem Row.get_set_self (r : Row) (k : String) (v : JsValue) :
    (r.set k v).get k = some v := by
  induction r with
  | nil => simp [Row.set, Row.get]
  | cons hd tl ih =>
      obtain ⟨k2, w⟩ := hd
      by_cases hk : k2 = k
      · simp [Row.set, Row.get, hk]
      · simp [Row.set, Row.get, hk, ih]

/-- The characters of a hex encoding. -/
theorem bytesToHex_data (bs : List Nat) :
    (bytesToHex bs).data = bs.flatMap byteHexChars := rfl

/-- Hex encoding yields two characters per byte. -/
theorem bytesToHex_length (bs : List Nat) :
    (bytesToHex bs).length = 2 * bs.length := by
  show (bs.flatMap byteHexChars).length = 2 * bs.length
  induction bs with
  | nil => rfl
  | cons b rest ih =>
      simp only [List.flatMap_cons, byteHexChars, List.length_append, List.length_cons,
        List.length_nil, List.length_cons, ih]
      omega

/-- Each digit produced by `hexDigit` on an input below 16 is a lowercase
hex character. -/
theorem hexDigit_mem_alphabet (n : Nat) (h : n < 16) : hexDigit n ∈ hexAlphabet := by
  interval_cases n <;> decide

/-- Every character of the hex encoding of a byte list is a lowercase hex
character. -/
theorem bytesToHex_chars (bs : List Nat) (hb : ∀ b ∈ bs, b < 256) :
    ∀ ch ∈ (bytesToHex bs).data, ch ∈ hexAlphabet := by
  intro ch hch
  rw [bytesToHex_data, List.mem_flatMap] at hch
  obtain ⟨b, hbs, hmem⟩ := hch
  have hb256 := hb b hbs
  simp only [byteHexChars, List.mem_cons, List.not_mem_nil, or_false] at hmem
  rcases hmem with h1 | h1 <;> subst h1
  · exact hexDigit_mem_alphabet _ (by omega)
  · exact hexDigit_mem_alphabet _ (Nat.mod_lt _ (by norm_num))

/-- `addVal` computes to inserting a descriptor carrying the value: the
`.error` branch of `addVal` is unreachable on the fresh descriptor. -/
theorem OraSqlParams.addVal_eq (ps : OraSqlParams) (name : String) (v : JsValue) :
    ps.addVal name v = ps.set name { OraSqlParam.new with valSlot := .value v } := rfl

/-- `open()` on an already-open driver is the identity, with no actions. -/
theorem openPool_of_opened (env : Env) (d : AfinaSqlDbDriver) (h : d.isOpened = true) :
    d.openPool env = (d, .ok (), []) := by
  unfold AfinaSqlDbDriver.openPool
  rw [if_pos h]

/-- A successful `open()` leaves the driver open. -/
theorem openPool_ok_opened (env : Env) (d d1 : AfinaSqlDbDriver) (u : Unit)
    (tr1 : List DbAction) (h : d.openPool env = (d1, .ok u, tr1)) :
    d1.isOpened = true := by
  unfold AfinaSqlDbDriver.openPool at h
  by_cases hop : d.isOpened
  · rw [if_pos hop] at h
    simp only [Prod.mk.injEq] at h
    rw [← h.1]
    exact hop
  · rw [if_neg hop] at h
    by_cases hu : d.dbUser = ""
    · rw [if_pos hu] at h
      simp at h
    · rw [if_neg hu] at h
      by_cases hc : d.dbConnectionString = ""
      · rw [if_pos hc] at h
        simp at h
      · rw [if_neg hc] at h
        by_cases hp : env.createPoolOk
        · rw [if_pos hp] at h
          simp only [Prod.mk.injEq] at h
          rw [← h.1]
        · rw [if_neg hp] at h
          simp at h

/-! ## Claim theorems -/

/-- C10: on a fresh descriptor (whose `val` slot still holds the prototype
method) the first `val(v)` call stores `v` in the `val` slot and returns
the descriptor, but the assignment replaces the `val` method itself by the
stored value, so a second `val` call on the same descriptor (including via
further chaining on the returned descriptor) throws a `TypeError` instead
of updating the value. -/
theorem param_val_shadows_method (p : OraSqlParam) (v w : JsValue)
    (h : p.valSlot = .method) :
    p.val v = .ok { p with valSlot := .value v }
    ∧ ({ p with valSlot := ValSlot.value v } : OraSqlParam).val w = .error .notAFunction := by
  constructor
  · unfold OraSqlParam.val
    rw [h]
  · rfl

/-- Witness for C10 at a concrete descriptor and values. -/
theorem param_val_shadows_method_witness :
    OraSqlParam.new.val (.str "X") = .ok { OraSqlParam.new with valSlot := .value (.str "X") }
    ∧ ({ OraSqlParam.new with valSlot := ValSlot.value (.str "X") } : OraSqlParam).val (.str "Y")
        = .error .notAFunction :=
  param_val_shadows_method OraSqlParam.new (.str "X") (.str "Y") rfl

/-- C6: with `aOldPackageSession = true` the `SBROWSER` bind parameter is
omitted from both the generated logon statement text and the parameter
collection; with `aOldPackageSession = false` the statement text mentions
`SBROWSER` and the collection holds an `SBROWSER` descriptor carrying the
browser tag. -/
theorem logon_legacy_omits_sbrowser (sid u p impl app co lang br : String) :
    (strContains (sqlLogon true) "SBROWSER" = false
      ∧ (logonParams sid u p impl app co lang br true).get "SBROWSER" = none)
    ∧ (strContains (sqlLogon false) "SBROWSER" = true
      ∧ (logonParams sid u p impl app co lang br false).get "SBROWSER"
          = some { OraSqlParam.new with valSlot := .value (.str br) }) := by
  exact ⟨⟨by decide, by rfl⟩, ⟨by decide, by rfl⟩⟩

/-- C5: `open()` is a no-op (no state change, no actions) when the driver
is already open; a successful `open()` leaves the driver open, so a second
sequential call creates no further pool; from a closed driver with valid
configuration, `open()` performs exactly one pool creation. -/
theorem open_idempotent (env : Env) (d : AfinaSqlDbDriver) :
    (d.isOpened = true → d.openPool env = (d, .ok (), []))
    ∧ (∀ d1 tr1, d.openPool env = (d1, .ok (), tr1) →
        d1.isOpened = true
        ∧ d1.openPool env = (d1, .ok (), [])
        ∧ (tr1 ++ (d1.openPool env).2.2).countP DbAction.isCreatePool
            = tr1.countP DbAction.isCreatePool)
    ∧ (d.isOpened = false → d.dbUser ≠ "" → d.dbConnectionString ≠ "" →
        env.createPoolOk = true →
        ((d.openPool env).2.2).countP DbAction.isCreatePool = 1) := by
  refine ⟨?_, ?_, ?_⟩
  · intro hop
    exact openPool_of_opened env d hop
  · intro d1 tr1 hok
    have h1 : d1.isOpened = true := openPool_ok_opened env d d1 () tr1 hok
    have h2 : d1.openPool env = (d1, .ok (), []) := openPool_of_opened env d1 h1
    refine ⟨h1, h2, ?_⟩
    rw [h2]
    simp
  · intro hcl hu hc hp
    unfold AfinaSqlDbDriver.openPool
    rw [if_neg (by simp [hcl]), if_neg hu, if_neg hc, if_pos hp]
    rfl

/-- Witness for C5: a fresh driver opens with one pool creation, and an
already-open driver's `open()` changes nothing. -/
theorem open_idempotent_witness :
    dFresh.isOpened = false
    ∧ ((dFresh.openPool envAll).2.2).countP DbAction.isCreatePool = 1
    ∧ d0.openPool envAll = (d0, .ok (), []) :=
  ⟨rfl, (open_idempotent envAll dFresh).2.2 rfl (by decide) (by decide) rfl,
   (open_idempotent envAll d0).1 rfl⟩

/-- C9: `close()` on a driver holding a pool terminates the pool and sets
`isOpened` to false; on a driver whose pool was never created it fails
(with the modelled `TypeError`) leaving the state unchanged; and any
successful `close()` leaves `isOpened` false. -/
theorem close_terminates_and_clears (d : AfinaSqlDbDriver) :
    (∀ p, d.pool = some p →
        d.close = ({ d with isOpened := false }, .ok (), [.poolTerminate]))
    ∧ (d.pool = none → d.close = (d, .error .poolUndefined, []))
    ∧ (∀ d1 u tr, d.close = (d1, .ok u, tr) → d1.isOpened = false) := by
  refine ⟨?_, ?_, ?_⟩
  · intro p hp
    unfold AfinaSqlDbDriver.close
    rw [hp]
  · intro hp
    unfold AfinaSqlDbDriver.close
    rw [hp]
  · intro d1 u tr h
    unfold AfinaSqlDbDriver.close at h
    cases hp : d.pool with
    | none =>
        rw [hp] at h
        simp at h
    | some p =>
        rw [hp] at h
        simp only [Prod.mk.injEq] at h
        rw [← h.1]

/-- Witness for C9 on an open driver and on a never-opened driver. -/
theorem close_terminates_and_clears_witness :
    d0.close = ({ d0 with isOpened := false }, .ok (), [.poolTerminate])
    ∧ dFresh.close = (dFresh, .error .poolUndefined, []) :=
  ⟨(close_terminates_and_clears d0).1 () rfl,
   (close_terminates_and_clears dFresh).2.1 rfl⟩

/-- C7: `logoff` never throws: its status is always `0` or `-1`; it is `0`
exactly when the internally scoped `execute` of the logoff statement
succeeded, and any error whatsoever from that call is swallowed into the
status `-1`. -/
theorem logoff_never_throws (env : Env) (d : AfinaSqlDbDriver) (s : String) :
    ((d.logoff env s).1 = 0 ∨ (d.logoff env s).1 = -1)
    ∧ (∀ d1 res tr,
        d.execute env s logoffSql (.positional [.str s]) none = (d1, .ok res, tr) →
        d.logoff env s = (0, d1, tr))
    ∧ (∀ d1 e tr,
        d.execute env s logoffSql (.positional [.str s]) none = (d1, .error e, tr) →
        d.logoff env s = (-1, d1, tr)) := by
  refine ⟨?_, ?_, ?_⟩
  · unfold AfinaSqlDbDriver.logoff
    rcases h : d.execute env s logoffSql (.positional [.str s]) none with ⟨d1, r, tr⟩
    cases r <;> simp
  · intro d1 res tr h
    unfold AfinaSqlDbDriver.logoff
    rw [h]
  · intro d1 e tr h
    unfold AfinaSqlDbDriver.logoff
    rw [h]

/-- Witness for C7: an invalid session token (session validation fails)
yields status `-1` and no exception. -/
theorem logoff_never_throws_witness :
    (d0.logoff envValidateFails "badtoken").1 = -1 := by
  have h := (logoff_never_throws envValidateFails d0 "badtoken").2.2 d0
      (.statement 0 validateSql (.positional [.str "badtoken"]))
      [DbAction.poolGetConnection 0,
       DbAction.connExecute 0 (alterSchemaSql "S") (.positional []),
       DbAction.connExecute 0 validateSql (.positional [.str "badtoken"])]
      (by rfl)
  rw [h]

/-- C3: with a caller-supplied connection, `execute` runs the statement on
it and never closes it — the trace contains no close on any exit path
(success or statement error), and the driver state is untouched. -/
theorem execute_external_connection_untouched (env : Env) (d : AfinaSqlDbDriver)
    (s sql : String) (binds : BindArgs) (c : Nat) :
    d.execute env s sql binds (some c) =
      (d,
       if env.execOk c sql binds then Except.ok ⟨env.rowsOf c sql binds⟩
       else Except.error (Err.statement c sql binds),
       [DbAction.connExecute c sql binds])
    ∧ ((d.execute env s sql binds (some c)).2.2).countP DbAction.isClose = 0 := by
  constructor
  · unfold AfinaSqlDbDriver.execute
    simp only [Env.connExec]
  · unfold AfinaSqlDbDriver.execute
    simp only [Env.connExec]
    rfl

/-- C1: when no external connection is supplied and the session bind
(`getConnection`) yields a connection, `execute` closes that connection
exactly once on both exit paths, and a statement error is propagated
unchanged to the caller, with the close in the trace after the statement
execution. -/
theorem execute_scoped_release_exactly_once (env : Env) (d d1 : AfinaSqlDbDriver)
    (s sql : String) (binds : BindArgs) (c : Nat) (tr0 : List DbAction)
    (hbind : d.getConnection env s = (d1, .ok c, tr0)) :
    d.execute env s sql binds none =
      (d1,
       if env.execOk c sql binds then Except.ok ⟨env.rowsOf c sql binds⟩
       else Except.error (Err.statement c sql binds),
       tr0 ++ [DbAction.connExecute c sql binds] ++ [DbAction.connClose c])
    ∧ ((d.execute env s sql binds none).2.2).countP DbAction.isClose = 1 := by
  have hfree : tr0.countP DbAction.isClose = 0 := by
    have h0 := getConnection_close_free env d s
    rw [hbind] at h0
    exact h0
  have heq : d.execute env s sql binds none =
      (d1,
       if env.execOk c sql binds then Except.ok ⟨env.rowsOf c sql binds⟩
       else Except.error (Err.statement c sql binds),
       tr0 ++ [DbAction.connExecute c sql binds] ++ [DbAction.connClose c]) := by
    unfold AfinaSqlDbDriver.execute
    rw [hbind]
    simp only [Env.connExec]
  refine ⟨heq, ?_⟩
  rw [heq]
  simp [List.countP_append, List.countP_cons, hfree, DbAction.isClose]

/-- Witness for C1: a failing statement on an internally bound connection
still closes it once, and the statement's own error surfaces. -/
theorem execute_scoped_release_witness :
    ((d0.execute envStmtFails "t" "select 1 from dual" (.positional []) none).2.2).countP
        DbAction.isClose = 1
    ∧ (d0.execute envStmtFails "t" "select 1 from dual" (.positional []) none).2.1 =
        Except.error (Err.statement 0 "select 1 from dual" (.positional [])) := by
  have h := execute_scoped_release_exactly_once envStmtFails d0 d0 "t" "select 1 from dual"
      (.positional []) 0
      [DbAction.poolGetConnection 0,
       DbAction.connExecute 0 (alterSchemaSql "S") (.positional []),
       DbAction.connExecute 0 validateSql (.positional [.str "t"])]
      (by rfl)
  refine ⟨h.2, ?_⟩
  rw [h.1]
  rfl

/-- C4: every connection returned by `getConnection` had the schema-switch
statement and then the session-validation statement executed on it, in that
order, as the last actions before it is handed out, with both succeeding;
and when validation fails its error propagates and no connection is
returned. -/
theorem getConnection_configures_before_return (env : Env) (d : AfinaSqlDbDriver)
    (s : String) :
    (∀ d1 c tr, d.getConnection env s = (d1, .ok c, tr) →
        c = env.newConnId
        ∧ env.execOk c (alterSchemaSql d1.dbSchema) (.positional []) = true
        ∧ env.execOk c validateSql (.positional [.str s]) = true
        ∧ ∃ trO, d.ensureOpen env = (d1, .ok (), trO)
            ∧ tr = trO ++ [DbAction.poolGetConnection c]
                 ++ [DbAction.connExecute c (alterSchemaSql d1.dbSchema) (.positional [])]
                 ++ [DbAction.connExecute c validateSql (.positional [.str s])])
    ∧ (∀ d1 trO, d.ensureOpen env = (d1, .ok (), trO) →
        env.execOk env.newConnId (alterSchemaSql d1.dbSchema) (.positional []) = true →
        env.execOk env.newConnId validateSql (.positional [.str s]) = false →
        d.getConnection env s =
          (d1, .error (.statement env.newConnId validateSql (.positional [.str s])),
           trO ++ [DbAction.poolGetConnection env.newConnId]
              ++ [DbAction.connExecute env.newConnId (alterSchemaSql d1.dbSchema)
                    (.positional [])]
              ++ [DbAction.connExecute env.newConnId validateSql
                    (.positional [.str s])])) := by
  constructor
  · intro d1 c tr h
    unfold AfinaSqlDbDriver.getConnection at h
    rcases ho : d.ensureOpen env with ⟨d2, r, trO⟩
    rw [ho] at h
    cases r with
    | error e => simp [Prod.mk.injEq] at h
    | ok u =>
        simp only [Env.connExec] at h
        by_cases e1 : env.execOk env.newConnId (alterSchemaSql d2.dbSchema) (.positional [])
        · by_cases e2 : env.execOk env.newConnId validateSql (.positional [.str s])
          · simp only [e1, if_true, e2] at h
            simp only [Prod.mk.injEq, Except.ok.injEq] at h
            obtain ⟨hd, hc, htr⟩ := h
            subst hd
            subst hc
            exact ⟨rfl, e1, e2, trO, by cases u; rfl, htr.symm⟩
          · simp only [e1, if_true] at h
            simp [e2, Prod.mk.injEq] at h
        · simp [e1, Prod.mk.injEq] at h
  · intro d1 trO ho e1 e2
    unfold AfinaSqlDbDriver.getConnection
    rw [ho]
    simp [Env.connExec, e1, e2]

/-- Witness for C4 at a concrete environment in which every statement
succeeds. -/
theorem getConnection_configures_witness :
    0 = envAll.newConnId
    ∧ envAll.execOk 0 (alterSchemaSql d0.dbSchema) (.positional []) = true
    ∧ envAll.execOk 0 validateSql (.positional [.str "t"]) = true
    ∧ ∃ trO, d0.ensureOpen envAll = (d0, .ok (), trO)
        ∧ [DbAction.poolGetConnection 0,
           DbAction.connExecute 0 (alterSchemaSql d0.dbSchema) (.positional []),
           DbAction.connExecute 0 validateSql (.positional [.str "t"])]
          = trO ++ [DbAction.poolGetConnection 0]
             ++ [DbAction.connExecute 0 (alterSchemaSql d0.dbSchema) (.positional [])]
             ++ [DbAction.connExecute 0 validateSql (.positional [.str "t"])] :=
  (getConnection_configures_before_return envAll d0 "t").1 d0 0
    [DbAction.poolGetConnection 0,
     DbAction.connExecute 0 (alterSchemaSql d0.dbSchema) (.positional []),
     DbAction.connExecute 0 validateSql (.positional [.str "t"])]
    (by rfl)

/-- C2 counterexample: in `logon`, the schema-switch statement executes
*before* the `try`/`finally` block, so when it fails the pooled connection
is never closed: the trace contains no close at all, while the schema
switch's error propagates. This contradicts "released exactly once
regardless of outcome — including when the schema-switch statement fails". -/
theorem logon_schema_switch_failure_leaks :
    (d0.logon envAlterFails "u" "w" "co" "app" "lang" false).2.1 =
      Except.error (.statement 0 (alterSchemaSql "S") (.positional []))
    ∧ ((d0.logon envAlterFails "u" "w" "co" "app" "lang" false).2.2).countP
        DbAction.isClose = 0 := by
  constructor <;> rfl

/-- C2 amended: once the schema-switch statement has succeeded, the
connection `logon` obtained from the pool is closed exactly once
regardless of the outcome of the logon statement and of the informational
query; a schema-switch failure, by contrast, leaks the connection (see the
counterexample). -/
theorem logon_release_after_schema_switch (env : Env) (d d1 : AfinaSqlDbDriver)
    (u w co app lang : String) (old : Bool) (trO : List DbAction)
    (ho : d.ensureOpen env = (d1, .ok (), trO))
    (e1 : env.execOk env.newConnId (alterSchemaSql d1.dbSchema) (.positional []) = true) :
    ((d.logon env u w co app lang old).2.2).countP DbAction.isClose = 1 := by
  have hfree : trO.countP DbAction.isClose = 0 := by
    have h0 := ensureOpen_close_count env d
    rw [ho] at h0
    exact h0
  unfold AfinaSqlDbDriver.logon
  rw [ho]
  by_cases e2 : env.execOk env.newConnId (sqlLogon old)
      (.named (logonParams (bytesToHex env.randomBytes) u w d.implementation app co lang
        d.browser old)) = true
  all_goals by_cases e3 : env.execOk env.newConnId sqlInfo (.named []) = true
  all_goals simp [Env.connExec, e1, e2, e3, List.countP_append, List.countP_cons, hfree,
    DbAction.isClose]

/-- Witness for C2's amended theorem in the all-success environment. -/
theorem logon_release_witness :
    ((d0.logon envAll "u" "w" "co" "app" "lang" false).2.2).countP DbAction.isClose = 1 :=
  logon_release_after_schema_switch envAll d0 d0 "u" "w" "co" "app" "lang" false []
    (by rfl) (by rfl)

/-- C8: a successful `logon` returns as `sessionID` the lowercase hex
encoding of the 24 random bytes drawn once at the start of the call:
a string of length 48 over the lowercase hex alphabet, attached to the
informational query's first row; the random draw is the first action of
the trace and occurs nowhere else (in particular before any statement
executes). -/
theorem logon_session_token_format (env : Env) (d d1 : AfinaSqlDbDriver)
    (u w co app lang : String) (old : Bool) (trO : List DbAction)
    (row0 : Row) (rest : List Row)
    (ho : d.ensureOpen env = (d1, .ok (), trO))
    (e1 : env.execOk env.newConnId (alterSchemaSql d1.dbSchema) (.positional []) = true)
    (e2 : env.execOk env.newConnId (sqlLogon old)
        (.named (logonParams (bytesToHex env.randomBytes) u w d.implementation app co lang
          d.browser old)) = true)
    (e3 : env.execOk env.newConnId sqlInfo (.named []) = true)
    (hrows : env.rowsOf env.newConnId sqlInfo (.named []) = row0 :: rest)
    (hlen : env.randomBytes.length = 24)
    (hrange : ∀ b ∈ env.randomBytes, b < 256) :
    d.logon env u w co app lang old =
      (d1, .ok (some (row0.set "sessionID" (.str (bytesToHex env.randomBytes)))),
       [DbAction.randomBytes 24] ++ trO
        ++ [DbAction.poolGetConnection env.newConnId]
        ++ [DbAction.connExecute env.newConnId (alterSchemaSql d1.dbSchema) (.positional [])]
        ++ [DbAction.connExecute env.newConnId (sqlLogon old)
             (.named (logonParams (bytesToHex env.randomBytes) u w d.implementation app co
               lang d.browser old))]
        ++ [DbAction.connExecute env.newConnId sqlInfo (.named [])]
        ++ [DbAction.connClose env.newConnId])
    ∧ (row0.set "sessionID" (.str (bytesToHex env.randomBytes))).get "sessionID"
        = some (.str (bytesToHex env.randomBytes))
    ∧ (bytesToHex env.randomBytes).length = 48
    ∧ (∀ ch ∈ (bytesToHex env.randomBytes).data, ch ∈ hexAlphabet)
    ∧ trO.countP DbAction.isRandomBytes = 0 := by
  refine ⟨?_, Row.get_set_self row0 _ _, by rw [bytesToHex_length, hlen],
    bytesToHex_chars _ hrange, ?_⟩
  · unfold AfinaSqlDbDriver.logon
    rw [ho]
    simp [Env.connExec, e1, e2, e3, hrows]
  · have h0 := ensureOpen_random_count env d
    rw [ho] at h0
    exact h0

/-- Witness for C8 in the all-success environment. -/
theorem logon_session_token_witness :
    (bytesToHex envAll.randomBytes).length = 48
    ∧ (d0.logon envAll "u" "w" "co" "app" "lang" false).2.1 =
        Except.ok (some (Row.set [("NCOMPANY", JsValue.num 1)] "sessionID"
          (.str (bytesToHex envAll.randomBytes)))) := by
  have h := logon_session_token_format envAll d0 d0 "u" "w" "co" "app" "lang" false []
      [("NCOMPANY", JsValue.num 1)] [] rfl rfl rfl rfl rfl rfl (by decide)
  exact ⟨h.2.2.1, by rw [h.1]⟩
